import Mathlib

/-!
Verification of the sensei-ai dashboard core: a shallow embedding of the
dataset accessor functions (frontend/utils/dashboardData.ts), the dashboard
page state (DashboardPage in frontend/components/Dashboard) and the Quiz
component state machine, together with theorems settling the specified
properties.  JavaScript nullable values become Option, JavaScript numbers
that are compared with 0 or with list lengths become Int (casting Nat
indices where the source subtracts), and JavaScript truthiness of nullable
strings is modelled explicitly (null and the empty string are falsy).
-/

namespace SenseiAI

/-- Embedding of the Choice record of dashboardData.ts. -/
structure Choice where
  choice_id : String
  text : String
  is_correct : Bool
  explanation : String
  deriving DecidableEq

/-- Embedding of the Question record of dashboardData.ts. -/
structure Question where
  question_id : String
  question_text : String
  choices : List Choice
  topic_id : String
  difficulty : String
  page_reference : Int
  deriving DecidableEq

/-- Embedding of the Subtopic record of dashboardData.ts. -/
structure Subtopic where
  id : String
  title : String
  page_reference : Int
  char_start : Int
  char_end : Int
  deriving DecidableEq

/-- Embedding of the Topic record of dashboardData.ts. -/
structure Topic where
  id : String
  title : String
  subtopics : List Subtopic
  page_range : List Int
  deriving DecidableEq

/-- Embedding of the TopicExplanation record of dashboardData.ts. -/
structure TopicExplanation where
  topic_id : String
  topic_title : String
  explanation : String
  prerequisite_concepts : List String
  next_steps : List String
  related_topics : List String
  deriving DecidableEq

/-- Embedding of the anonymous structure field of DashboardData. -/
structure DashboardStructure where
  topics : List Topic
  document_title : String
  deriving DecidableEq

/-- Embedding of the anonymous explanations field of DashboardData. -/
structure DashboardExplanations where
  overarching_explanation : String
  topic_explanations : List TopicExplanation
  deriving DecidableEq

/-- Embedding of the anonymous quiz field of DashboardData. -/
structure DashboardQuiz where
  questions : List Question
  deriving DecidableEq

/-- Embedding of DashboardData; the source field named structure is a Lean
keyword, so it is rendered structure_. -/
structure DashboardData where
  structure_ : DashboardStructure
  explanations : DashboardExplanations
  quiz : DashboardQuiz
  deriving DecidableEq

/-- Embedding of findTopicById of dashboardData.ts. -/
def findTopicById (data : DashboardData) (topicId : String) : Option Topic :=
  data.structure_.topics.find? (fun topic => topic.id == topicId)

/-- Embedding of the for-loop of findSubtopicById, recursing over the topic
list and returning at the first topic whose subtopics contain the id. -/
def findSubtopicInTopics (subtopicId : String) : List Topic → Option (Topic × Subtopic)
  | [] => none
  | topic :: rest =>
    match topic.subtopics.find? (fun sub => sub.id == subtopicId) with
    | some subtopic => some (topic, subtopic)
    | none => findSubtopicInTopics subtopicId rest

/-- Embedding of findSubtopicById of dashboardData.ts; the source returns an
object with topic and subtopic fields, rendered as a pair. -/
def findSubtopicById (data : DashboardData) (subtopicId : String) :
    Option (Topic × Subtopic) :=
  findSubtopicInTopics subtopicId data.structure_.topics

/-- Embedding of getTopicExplanation of dashboardData.ts.  The source returns
the JavaScript expression explanation?.explanation || null, whose or-operator
maps an empty explanation string to null; that coercion is modelled by the
emptiness test. -/
def getTopicExplanation (data : DashboardData) (topicId : String) : Option String :=
  match data.explanations.topic_explanations.find? (fun exp => exp.topic_id == topicId) with
  | none => none
  | some exp => if exp.explanation == "" then none else some exp.explanation

/-- Embedding of getSubtopicExplanation of dashboardData.ts. -/
def getSubtopicExplanation (data : DashboardData) (subtopicId : String) : Option String :=
  match findSubtopicById data subtopicId with
  | none => none
  | some result => getTopicExplanation data result.1.id

/-- Embedding of getTopicQuestions of dashboardData.ts. -/
def getTopicQuestions (data : DashboardData) (topicId : String) : List Question :=
  data.quiz.questions.filter (fun q => q.topic_id == topicId)

/-- Embedding of getSubtopicQuestions of dashboardData.ts. -/
def getSubtopicQuestions (data : DashboardData) (subtopicId : String) : List Question :=
  match findSubtopicById data subtopicId with
  | none => []
  | some result => getTopicQuestions data result.1.id

/-- Embedding of the answer records produced by convertQuestionToQuizFormat. -/
structure QuizAnswer where
  id : String
  text : String
  isCorrect : Bool
  explanation : String
  deriving DecidableEq

/-- Embedding of the QuestionStackItem records of the dashboard page. -/
structure QuestionStackItem where
  questionId : String
  question : String
  answers : List QuizAnswer
  deriving DecidableEq

/-- Embedding of convertQuestionToQuizFormat of dashboardData.ts. -/
def convertQuestionToQuizFormat (question : Question) : QuestionStackItem :=
  { questionId := question.question_id
    question := question.question_text
    answers := question.choices.map (fun choice =>
      { id := choice.choice_id
        text := choice.text
        isCorrect := choice.is_correct
        explanation := choice.explanation }) }

/-- Truthiness of a JavaScript nullable string: null and the empty string are
falsy, every other string is truthy. -/
def truthyStr : Option String → Bool
  | none => false
  | some s => s != ""

/-- Local state of the Quiz component: selectedAnswer, correctAnswerId and
selectedExplanation, each a nullable string. -/
structure QuizState where
  selectedAnswer : Option String
  correctAnswerId : Option String
  selectedExplanation : Option String
  deriving DecidableEq

/-- Initial Quiz component state: every useState starts at null. -/
def initQuizState : QuizState :=
  { selectedAnswer := none, correctAnswerId := none, selectedExplanation := none }

/-- Combined state of DashboardPage together with the mounted Quiz component
state.  The pdfFile slot is outside the specified core and omitted. -/
structure DashState where
  dashboardData : Option DashboardData
  selectedSubtopicId : Option String
  pdfPageNumber : Option Int
  explanationText : String
  questionStack : List QuestionStackItem
  currentQuestionIndex : Nat
  questionsComplete : Bool
  quiz : QuizState
  deriving DecidableEq

/-- Initial DashboardPage state as set by its useState initialisers. -/
def initialState : DashState :=
  { dashboardData := none
    selectedSubtopicId := none
    pdfPageNumber := none
    explanationText := ""
    questionStack := []
    currentQuestionIndex := 0
    questionsComplete := false
    quiz := initQuizState }

/-- Embedding of the question-stack useEffect of DashboardPage.  The guard
returns early when dashboardData is null or selectedSubtopicId is falsy
(null or empty); otherwise the stack, index, completion flag and explanation
text are recomputed from getSubtopicQuestions. -/
def recomputeQuestionStack (s : DashState) : DashState :=
  match s.dashboardData, s.selectedSubtopicId with
  | some data, some subtopicId =>
    if subtopicId == "" then s
    else
      let questions := getSubtopicQuestions data subtopicId
      if questions.length > 0 then
        { s with questionStack := questions.map convertQuestionToQuizFormat
                 currentQuestionIndex := 0
                 questionsComplete := false
                 explanationText :=
                   (getSubtopicExplanation data subtopicId).getD "No explanation available." }
      else
        { s with questionStack := []
                 currentQuestionIndex := 0
                 questionsComplete := false
                 explanationText := "No questions available for this subtopic." }
  | _, _ => s

/-- Remount semantics of the Quiz component: its key is built from the
selected subtopic id and the current question index, so whenever that pair
changes the component remounts and its local state is reset (the reset
useEffect on a question change has the same effect). -/
def syncQuiz (old next : DashState) : DashState :=
  if old.selectedSubtopicId = next.selectedSubtopicId ∧
     old.currentQuestionIndex = next.currentQuestionIndex then next
  else { next with quiz := initQuizState }

/-- Embedding of the data-load useEffect of DashboardPage: when the fetch
resolves with data, store it and default the selection to the first subtopic of the first topic when both exist, then rerun the question-stack effect. -/
def handleDataLoad (s : DashState) (data : Option DashboardData) : DashState :=
  match data with
  | none => s
  | some d =>
    let s1 := { s with dashboardData := some d }
    let s2 :=
      match d.structure_.topics with
      | [] => s1
      | t0 :: _ =>
        match t0.subtopics with
        | [] => s1
        | sub0 :: _ => { s1 with selectedSubtopicId := some sub0.id }
    syncQuiz s (recomputeQuestionStack s2)

/-- Embedding of handleSubtopicClick of DashboardPage: sets the selection,
updates the PDF page only for a present positive page reference, and reruns
the question-stack effect when the selection actually changed. -/
def handleSubtopicClick (s : DashState) (subtopicId : String)
    (pageReference : Option Int) : DashState :=
  let s1 := { s with selectedSubtopicId := some subtopicId }
  let s2 :=
    match pageReference with
    | some p => if p > 0 then { s1 with pdfPageNumber := some p } else s1
    | none => s1
  if s.selectedSubtopicId = some subtopicId then s2
  else syncQuiz s (recomputeQuestionStack s2)

/-- Answers of the question currently rendered by the Quiz component. -/
def currentAnswers (s : DashState) : List QuizAnswer :=
  match s.questionStack.get? s.currentQuestionIndex with
  | some item => item.answers
  | none => []

/-- Embedding of handleAnswerClick of the Quiz component together with the
parent handleAnswerSelect callback: a truthy selectedAnswer blocks the click;
otherwise the pick is recorded, the correct answer id is looked up in the
rendered answers when the pick is wrong, and the explanation text of the
picked answer is propagated to the page. -/
def handleAnswerClick (s : DashState) (answerId : String) (isCorrect : Bool)
    (explanation : String) : DashState :=
  if truthyStr s.quiz.selectedAnswer then s
  else
    let correctId : Option String :=
      if isCorrect then some answerId
      else
        match (currentAnswers s).find? (fun a => a.isCorrect) with
        | some c => some c.id
        | none => s.quiz.correctAnswerId
    { s with quiz := { selectedAnswer := some answerId
                       correctAnswerId := correctId
                       selectedExplanation := some explanation }
             explanationText := explanation }

/-- Clicking the button of a given rendered answer, which passes that
id, correctness flag of the answer and explanation to handleAnswerClick. -/
def clickAnswer (s : DashState) (a : QuizAnswer) : DashState :=
  handleAnswerClick s a.id a.isCorrect a.explanation

/-- Embedding of handleNextQuestion of DashboardPage.  The source compares
currentQuestionIndex with questionStack.length - 1 over JavaScript numbers,
rendered with an Int cast. -/
def handleNextQuestion (s : DashState) : DashState :=
  if (s.currentQuestionIndex : Int) < (s.questionStack.length : Int) - 1 then
    let s1 := { s with currentQuestionIndex := s.currentQuestionIndex + 1 }
    match s.dashboardData, s.selectedSubtopicId with
    | some data, some subtopicId =>
      if subtopicId == "" then s1
      else
        { s1 with explanationText :=
            (getSubtopicExplanation data subtopicId).getD "No explanation available." }
    | _, _ => s1
  else
    { s with questionsComplete := true
             explanationText := "All questions have been answered!" }

/-- Embedding of handleNext of the Quiz component: onNext fires only when
selectedAnswer is truthy; an index change then remounts the Quiz. -/
def handleNext (s : DashState) : DashState :=
  if truthyStr s.quiz.selectedAnswer then syncQuiz s (handleNextQuestion s)
  else s

/-- Question Progression states of the specification. -/
inductive ProgState where
  | Empty : ProgState
  | InProgress : Nat → ProgState
  | Complete : ProgState
  deriving DecidableEq

/-- View of the page state as a Question Progression machine state: the
completion flag marks Complete, an empty stack marks Empty, and otherwise the
machine is in progress at the current index. -/
def progState (s : DashState) : ProgState :=
  if s.questionsComplete then ProgState.Complete
  else if s.questionStack.length = 0 then ProgState.Empty
  else ProgState.InProgress s.currentQuestionIndex

/-- Whether the Quiz button of answer a is rendered with the green correct
style by getButtonStyle: only after a truthy pick, and exactly on the answers
flagged correct. -/
def answerShownCorrect (s : DashState) (a : QuizAnswer) : Bool :=
  truthyStr s.quiz.selectedAnswer && a.isCorrect

/-- Document-order list of (owning topic, subtopic) pairs, written from the
wording of the specification of document order for comparison with the
nested search of the implementation. -/
def subtopicPairsInOrder (data : DashboardData) : List (Topic × Subtopic) :=
  data.structure_.topics.flatMap (fun t => t.subtopics.map (fun sub => (t, sub)))

/-! Sample data used by witnesses and counterexamples. -/

/-- Sample subtopic with a positive page reference. -/
def sampleS1 : Subtopic :=
  { id := "s1", title := "Sub one", page_reference := 3, char_start := 0, char_end := 10 }

/-- Sample subtopic with a zero page reference. -/
def sampleS2 : Subtopic :=
  { id := "s2", title := "Sub two", page_reference := 0, char_start := 10, char_end := 20 }

/-- Sample subtopic of the second topic. -/
def sampleS3 : Subtopic :=
  { id := "s3", title := "Sub three", page_reference := 5, char_start := 20, char_end := 30 }

/-- Sample first topic. -/
def sampleT1 : Topic :=
  { id := "t1", title := "Topic one", subtopics := [sampleS1, sampleS2], page_range := [1, 4] }

/-- Sample second topic. -/
def sampleT2 : Topic :=
  { id := "t2", title := "Topic two", subtopics := [sampleS3], page_range := [5, 6] }

/-- Sample question one of topic t1, with one correct and one wrong choice. -/
def sampleQ1 : Question :=
  { question_id := "q1", question_text := "Question one"
    choices :=
      [ { choice_id := "a", text := "Answer a", is_correct := true, explanation := "ea" }
      , { choice_id := "b", text := "Answer b", is_correct := false, explanation := "eb" } ]
    topic_id := "t1", difficulty := "easy", page_reference := 1 }

/-- Sample question two of topic t1. -/
def sampleQ2 : Question :=
  { question_id := "q2", question_text := "Question two"
    choices :=
      [ { choice_id := "c", text := "Answer c", is_correct := true, explanation := "ec" } ]
    topic_id := "t1", difficulty := "easy", page_reference := 2 }

/-- Sample explanation of topic t1. -/
def sampleE1 : TopicExplanation :=
  { topic_id := "t1", topic_title := "Topic one", explanation := "T1 explanation"
    prerequisite_concepts := [], next_steps := [], related_topics := [] }

/-- Sample explanation record of topic t2 whose explanation text is empty. -/
def sampleE2 : TopicExplanation :=
  { topic_id := "t2", topic_title := "Topic two", explanation := ""
    prerequisite_concepts := [], next_steps := [], related_topics := [] }

/-- Sample dataset: two topics, t1 with two subtopics and two questions,
t2 with one subtopic, no questions and an empty explanation text. -/
def data0 : DashboardData :=
  { structure_ := { topics := [sampleT1, sampleT2], document_title := "Doc" }
    explanations :=
      { overarching_explanation := "All", topic_explanations := [sampleE1, sampleE2] }
    quiz := { questions := [sampleQ1, sampleQ2] } }

/-- Subtopic whose id is the empty string: the schema treats ids as opaque
unique strings, so this is a well-formed dataset entry. -/
def subEmptyId : Subtopic :=
  { id := "", title := "Nameless", page_reference := 0, char_start := 30, char_end := 40 }

/-- Question whose first choice has an empty-string choice id. -/
def questionCE1 : Question :=
  { question_id := "q1", question_text := "Question one"
    choices :=
      [ { choice_id := "", text := "Answer zero", is_correct := true, explanation := "e0" }
      , { choice_id := "b1", text := "Answer one", is_correct := false, explanation := "e1" } ]
    topic_id := "t1", difficulty := "easy", page_reference := 1 }

/-- Second question of the counterexample dataset. -/
def questionCE2 : Question :=
  { question_id := "q2", question_text := "Question two"
    choices :=
      [ { choice_id := "c2", text := "Answer c2", is_correct := true, explanation := "e2" } ]
    topic_id := "t1", difficulty := "easy", page_reference := 2 }

/-- Topic of the counterexample dataset, containing a subtopic with an
empty-string id. -/
def topicCE : Topic :=
  { id := "t1", title := "Topic one", subtopics := [sampleS1, subEmptyId]
    page_range := [1, 4] }

/-- Counterexample dataset: one topic with two questions; one subtopic id and
one choice id are the empty string. -/
def dataCE : DashboardData :=
  { structure_ := { topics := [topicCE], document_title := "Doc" }
    explanations := { overarching_explanation := "All", topic_explanations := [sampleE1] }
    quiz := { questions := [questionCE1, questionCE2] } }

/-- Rendered answer corresponding to the empty-id choice of questionCE1. -/
def answerE0 : QuizAnswer :=
  { id := "", text := "Answer zero", isCorrect := true, explanation := "e0" }

/-- Rendered answer corresponding to choice b1 of questionCE1. -/
def answerE1 : QuizAnswer :=
  { id := "b1", text := "Answer one", isCorrect := false, explanation := "e1" }

/-- Rendered answer corresponding to choice a of sampleQ1. -/
def answerA : QuizAnswer :=
  { id := "a", text := "Answer a", isCorrect := true, explanation := "ea" }

/-- Rendered answer corresponding to choice b of sampleQ1. -/
def answerB : QuizAnswer :=
  { id := "b", text := "Answer b", isCorrect := false, explanation := "eb" }

/-- Page state after loading the sample dataset: subtopic s1 selected, two
questions on the stack, index 0. -/
def state0 : DashState := handleDataLoad initialState (some data0)

/-- Page state after loading the counterexample dataset. -/
def stateCE0 : DashState := handleDataLoad initialState (some dataCE)

/-- Page state after picking the empty-id choice of the first question. -/
def stateCE1 : DashState := clickAnswer stateCE0 answerE0

/-- Page state after answering the first question with choice b1 and
advancing: index 1 of the two-question stack. -/
def stateCE2 : DashState := handleNext (clickAnswer stateCE0 answerE1)

/-- Page state after then clicking the empty-id subtopic. -/
def stateCE3 : DashState := handleSubtopicClick stateCE2 "" none

/-! Helper lemmas about the frame of the effect pipeline. -/

/-- Recomputing the question stack never touches the selected subtopic id. -/
theorem recomputeQuestionStack_selectedSubtopicId (s : DashState) :
    (recomputeQuestionStack s).selectedSubtopicId = s.selectedSubtopicId := by
  rcases s with ⟨dd, sel, pdf, expl, stack, idx, comp, qz⟩
  cases dd <;> cases sel <;> simp only [recomputeQuestionStack]
  split
  · rfl
  · split <;> rfl

/-- Remount synchronisation never touches the selected subtopic id. -/
theorem syncQuiz_selectedSubtopicId (old next : DashState) :
    (syncQuiz old next).selectedSubtopicId = next.selectedSubtopicId := by
  unfold syncQuiz
  split <;> rfl

/-- Recomputing the question stack never touches the PDF page. -/
theorem recomputeQuestionStack_pdfPageNumber (s : DashState) :
    (recomputeQuestionStack s).pdfPageNumber = s.pdfPageNumber := by
  rcases s with ⟨dd, sel, pdf, expl, stack, idx, comp, qz⟩
  cases dd <;> cases sel <;> simp only [recomputeQuestionStack]
  split
  · rfl
  · split <;> rfl

/-- Remount synchronisation never touches the PDF page. -/
theorem syncQuiz_pdfPageNumber (old next : DashState) :
    (syncQuiz old next).pdfPageNumber = next.pdfPageNumber := by
  unfold syncQuiz
  split <;> rfl

/-! Claim theorems. -/

/-- C5: fallback law.  Whenever findSubtopicById resolves a subtopic id to an
owning topic, the subtopic-level explanation and question accessors equal the
topic-level accessors applied to the id of that owning topic. -/
theorem subtopic_fallback_law (data : DashboardData) (sid : String) (t : Topic)
    (sub : Subtopic) (h : findSubtopicById data sid = some (t, sub)) :
    getSubtopicExplanation data sid = getTopicExplanation data t.id ∧
    getSubtopicQuestions data sid = getTopicQuestions data t.id := by
  constructor <;> simp [getSubtopicExplanation, getSubtopicQuestions, h]

/-- Witness for C5 on the sample dataset: subtopic s1 is owned by topic t1. -/
theorem subtopic_fallback_law_witness :
    getSubtopicExplanation data0 "s1" = getTopicExplanation data0 "t1" ∧
    getSubtopicQuestions data0 "s1" = getTopicQuestions data0 "t1" :=
  subtopic_fallback_law data0 "s1" sampleT1 sampleS1 (by decide)

/-- C6: getTopicQuestions returns exactly the subsequence of the flat
question collection whose topic_id matches, preserving original order: it is
a sublist of the collection, its members are exactly the matching members of
the collection, and it is the greatest such sublist (every sublist consisting
of matching questions embeds into it), which pins it uniquely. -/
theorem topic_questions_exact_subsequence (data : DashboardData) (id : String) :
    (getTopicQuestions data id).Sublist data.quiz.questions ∧
    (∀ q, q ∈ getTopicQuestions data id ↔ q ∈ data.quiz.questions ∧ q.topic_id = id) ∧
    (∀ S : List Question, S.Sublist data.quiz.questions →
      (∀ q ∈ S, q.topic_id = id) → S.Sublist (getTopicQuestions data id)) := by
  refine ⟨List.filter_sublist _, ?_, ?_⟩
  · intro q
    simp [getTopicQuestions, List.mem_filter]
  · intro S hS hall
    have hfs : S.filter (fun q => q.topic_id == id) = S :=
      List.filter_eq_self.mpr (by intro a ha; simpa using hall a ha)
    have hsub := List.Sublist.filter (fun q => q.topic_id == id) hS
    rw [hfs] at hsub
    exact hsub

/-- Witness for C6 on the sample dataset at topic id t1. -/
theorem topic_questions_exact_subsequence_witness :
    (getTopicQuestions data0 "t1").Sublist data0.quiz.questions :=
  (topic_questions_exact_subsequence data0 "t1").1

/-- Helper: the nested search of findSubtopicById agrees with the first match
of the flattened document-order pair list. -/
theorem findSubtopicInTopics_eq_find? (sid : String) (ts : List Topic) :
    findSubtopicInTopics sid ts =
      (ts.flatMap (fun t => t.subtopics.map (fun sub => (t, sub)))).find?
        (fun p => p.2.id == sid) := by
  induction ts with
  | nil => rfl
  | cons t rest ih =>
    simp only [findSubtopicInTopics, List.flatMap_cons, List.find?_append, List.find?_map]
    have hcomp : ((fun p : Topic × Subtopic => p.2.id == sid) ∘ (fun sub => (t, sub))) =
        (fun sub => sub.id == sid) := rfl
    rw [hcomp]
    cases hfind : t.subtopics.find? (fun sub => sub.id == sid) with
    | none => simp [hfind, ih]
    | some sub => simp [hfind]

/-- C7: findSubtopicById returns the first (owning topic, subtopic) pair in
document order whose subtopic id matches (equal to find? over the flattened
pair list), returns none exactly when no topic contains a matching subtopic,
and any returned pair really is an owning pair: the topic occurs in the
dataset, its subtopics contain the returned subtopic, and the id matches. -/
theorem find_subtopic_first_in_document_order (data : DashboardData) (sid : String) :
    findSubtopicById data sid =
      (subtopicPairsInOrder data).find? (fun p => p.2.id == sid) ∧
    (findSubtopicById data sid = none ↔
      ∀ t ∈ data.structure_.topics, ∀ sub ∈ t.subtopics, sub.id ≠ sid) ∧
    (∀ t sub, findSubtopicById data sid = some (t, sub) →
      t ∈ data.structure_.topics ∧ sub ∈ t.subtopics ∧ sub.id = sid) := by
  have hmain : findSubtopicById data sid =
      (subtopicPairsInOrder data).find? (fun p => p.2.id == sid) :=
    findSubtopicInTopics_eq_find? sid data.structure_.topics
  refine ⟨hmain, ?_, ?_⟩
  · rw [hmain]
    simp only [List.find?_eq_none, subtopicPairsInOrder, List.mem_flatMap, List.mem_map]
    constructor
    · intro h t ht sub hsub
      have := h (t, sub) ⟨t, ht, sub, hsub, rfl⟩
      simpa using this
    · intro h x hx
      obtain ⟨t2, ht2, sub2, hsub2, heq⟩ := hx
      cases heq
      simpa using h t2 ht2 sub2 hsub2
  · intro t sub hfind
    rw [hmain] at hfind
    have hmem := List.mem_of_find?_eq_some hfind
    have hp := List.find?_some hfind
    simp only [subtopicPairsInOrder, List.mem_flatMap, List.mem_map] at hmem
    obtain ⟨t2, ht2, sub2, hsub2, heq⟩ := hmem
    injection heq with h1 h2
    subst h1
    subst h2
    exact ⟨ht2, hsub2, by simpa using hp⟩

/-- Witness for C7 on the sample dataset at subtopic id s3. -/
theorem find_subtopic_first_in_document_order_witness :
    findSubtopicById data0 "s3" =
      (subtopicPairsInOrder data0).find? (fun p => p.2.id == "s3") :=
  (find_subtopic_first_in_document_order data0 "s3").1

/-- C10: getTopicExplanation returns absent both when no TopicExplanation
matches the topic id and when the matching record exists but its explanation
text is the empty string (the JavaScript or-null coercion); consequently
getSubtopicExplanation is absent for subtopics owned by such a topic. -/
theorem empty_explanation_is_absent (data : DashboardData) (tid : String) :
    (data.explanations.topic_explanations.find? (fun e => e.topic_id == tid) = none →
      getTopicExplanation data tid = none) ∧
    (∀ e, data.explanations.topic_explanations.find? (fun x => x.topic_id == tid) = some e →
      e.explanation = "" → getTopicExplanation data tid = none) ∧
    (∀ sid t sub, findSubtopicById data sid = some (t, sub) →
      getTopicExplanation data t.id = none → getSubtopicExplanation data sid = none) := by
  refine ⟨?_, ?_, ?_⟩
  · intro h
    simp [getTopicExplanation, h]
  · intro e he hemp
    simp [getTopicExplanation, he, hemp]
  · intro sid t sub h hnone
    simp [getSubtopicExplanation, h, hnone]

/-- Witness for C10 on the sample dataset: topic t2 has a TopicExplanation
record with empty text, so both accessors return none. -/
theorem empty_explanation_is_absent_witness :
    getTopicExplanation data0 "t2" = none ∧ getSubtopicExplanation data0 "s3" = none := by
  have h := empty_explanation_is_absent data0 "t2"
  have h1 : getTopicExplanation data0 "t2" = none := h.2.1 sampleE2 (by decide) rfl
  exact ⟨h1, h.2.2 "s3" sampleT2 sampleS3 (by decide) h1⟩

/-- C8: selecting a subtopic sets the PDF page exactly for a present positive
page reference; a zero or absent reference leaves the PDF page unchanged. -/
theorem subtopic_click_pdf_page (s : DashState) (id : String) (p : Int) :
    (0 < p → (handleSubtopicClick s id (some p)).pdfPageNumber = some p) ∧
    ((handleSubtopicClick s id (some 0)).pdfPageNumber = s.pdfPageNumber) ∧
    ((handleSubtopicClick s id none).pdfPageNumber = s.pdfPageNumber) := by
  refine ⟨?_, ?_, ?_⟩
  · intro hp
    by_cases hsel : s.selectedSubtopicId = some id <;>
      simp [handleSubtopicClick, hsel, hp, syncQuiz_pdfPageNumber,
        recomputeQuestionStack_pdfPageNumber]
  · by_cases hsel : s.selectedSubtopicId = some id <;>
      simp [handleSubtopicClick, hsel, syncQuiz_pdfPageNumber,
        recomputeQuestionStack_pdfPageNumber]
  · by_cases hsel : s.selectedSubtopicId = some id <;>
      simp [handleSubtopicClick, hsel, syncQuiz_pdfPageNumber,
        recomputeQuestionStack_pdfPageNumber]

/-- Witness for C8: clicking with page reference 5 from the initial state
sets the PDF page to 5. -/
theorem subtopic_click_pdf_page_witness :
    (handleSubtopicClick initialState "s1" (some 5)).pdfPageNumber = some 5 :=
  (subtopic_click_pdf_page initialState "s1" 5).1 (by decide)

/-- Helper: on an actual selection change, handleSubtopicClick is the effect
pipeline applied to the state with the new selection and the conditionally
updated PDF page. -/
theorem handleSubtopicClick_eq (s : DashState) (id : String) (p : Option Int)
    (hchange : s.selectedSubtopicId ≠ some id) :
    handleSubtopicClick s id p =
      syncQuiz s (recomputeQuestionStack
        { s with selectedSubtopicId := some id
                 pdfPageNumber :=
                   match p with
                   | some q => if q > 0 then some q else s.pdfPageNumber
                   | none => s.pdfPageNumber }) := by
  unfold handleSubtopicClick
  rw [if_neg hchange]
  cases p with
  | none => rfl
  | some q => by_cases hq : q > 0 <;> simp [hq]

/-- C9: initialisation policy.  After a successful dataset load from the
initial page state, if the dataset has a first topic with a first subtopic
then that subtopic becomes the initial selection; if the dataset has no
topics, or its first topic has no subtopics, the selection stays absent and
the progression state is Empty.  All transition functions are total, so no
error can be raised. -/
theorem initial_selection_policy (data : DashboardData) :
    (∀ t0 s0, data.structure_.topics.head? = some t0 → t0.subtopics.head? = some s0 →
      (handleDataLoad initialState (some data)).selectedSubtopicId = some s0.id) ∧
    ((data.structure_.topics = [] ∨
      ∃ t0, data.structure_.topics.head? = some t0 ∧ t0.subtopics = []) →
      (handleDataLoad initialState (some data)).selectedSubtopicId = none ∧
      progState (handleDataLoad initialState (some data)) = ProgState.Empty) := by
  constructor
  · intro t0 s0 ht hs
    cases hts : data.structure_.topics with
    | nil => rw [hts] at ht; cases ht
    | cons a as =>
      rw [hts] at ht
      simp only [List.head?_cons, Option.some.injEq] at ht
      subst ht
      cases hsub : a.subtopics with
      | nil => rw [hsub] at hs; cases hs
      | cons b bs =>
        rw [hsub] at hs
        simp only [List.head?_cons, Option.some.injEq] at hs
        subst hs
        simp only [handleDataLoad, hts, hsub]
        simp [syncQuiz_selectedSubtopicId, recomputeQuestionStack_selectedSubtopicId]
  · intro h
    rcases h with h | ⟨t0, ht, hsub⟩
    · simp only [handleDataLoad, h]
      simp [recomputeQuestionStack, syncQuiz, initialState, progState]
    · cases hts : data.structure_.topics with
      | nil =>
        simp only [handleDataLoad, hts]
        simp [recomputeQuestionStack, syncQuiz, initialState, progState]
      | cons a as =>
        rw [hts] at ht
        simp only [List.head?_cons, Option.some.injEq] at ht
        subst ht
        simp only [handleDataLoad, hts, hsub]
        simp [recomputeQuestionStack, syncQuiz, initialState, progState]

/-- Witness for C9: loading the sample dataset selects the first subtopic of
the first topic. -/
theorem initial_selection_policy_witness :
    (handleDataLoad initialState (some data0)).selectedSubtopicId = some sampleS1.id :=
  (initial_selection_policy data0).1 sampleT1 sampleS1 rfl rfl

/-- C1 (amended): on every change of the selected subtopic id to a non-empty
id, the Question Progression state is recomputed from the list of the new selection given by getSubtopicQuestions: a non-empty list puts the machine in
InProgress(0) with the converted list as the stack and the per-question
answered state reset, and an empty list puts it in Empty, likewise with the
answered state reset. -/
theorem selection_change_recompute (s : DashState) (data : DashboardData) (id : String)
    (p : Option Int)
    (hdata : s.dashboardData = some data) (hid : id ≠ "")
    (hchange : s.selectedSubtopicId ≠ some id) :
    ((getSubtopicQuestions data id).length > 0 →
      progState (handleSubtopicClick s id p) = ProgState.InProgress 0 ∧
      (handleSubtopicClick s id p).questionStack =
        (getSubtopicQuestions data id).map convertQuestionToQuizFormat ∧
      (handleSubtopicClick s id p).quiz = initQuizState) ∧
    ((getSubtopicQuestions data id).length = 0 →
      progState (handleSubtopicClick s id p) = ProgState.Empty ∧
      (handleSubtopicClick s id p).questionStack = [] ∧
      (handleSubtopicClick s id p).quiz = initQuizState) := by
  rw [handleSubtopicClick_eq s id p hchange]
  have hbeq : (id == "") = false := by
    simpa using hid
  rcases s with ⟨dd, sel, pdf, expl, stack, idx, comp, qz⟩
  simp only at hdata hchange
  subst hdata
  constructor
  · intro hlen
    have hne : ((getSubtopicQuestions data id).map convertQuestionToQuizFormat).length ≠ 0 := by
      simpa using Nat.pos_iff_ne_zero.mp hlen
    simp only [recomputeQuestionStack, hbeq, Bool.false_eq_true, if_false, if_pos hlen]
    simp only [syncQuiz]
    rw [if_neg (by simpa using fun hc _ => hchange hc)]
    refine ⟨?_, rfl, rfl⟩
    have hq : getSubtopicQuestions data id ≠ [] := by
      intro hq
      rw [hq] at hlen
      simp at hlen
    simp [progState, hne, hq]
  · intro hlen
    simp only [recomputeQuestionStack, hbeq, Bool.false_eq_true, if_false]
    rw [if_neg (by simp [hlen])]
    simp only [syncQuiz]
    rw [if_neg (by simpa using fun hc _ => hchange hc)]
    refine ⟨?_, rfl, rfl⟩
    simp [progState]

/-- C1 counterexample: in the counterexample dataset the machine is at
InProgress(1); changing the selection to the empty-string subtopic id, whose
question list is non-empty, must per the claim restart at InProgress(0), but
the falsy guard of the question-stack effect skips the recomputation and the
machine stays at InProgress(1). -/
theorem selection_change_recompute_counterexample :
    stateCE2.selectedSubtopicId = some "s1" ∧
    stateCE3.selectedSubtopicId = some "" ∧
    (getSubtopicQuestions dataCE "").length > 0 ∧
    progState stateCE3 = ProgState.InProgress 1 := by decide

/-- Witness for C1 on the sample dataset: changing the selection from s1 to
s3, whose topic has no questions, empties the machine. -/
theorem selection_change_recompute_witness :
    progState (handleSubtopicClick state0 "s3" (some 5)) = ProgState.Empty ∧
    (handleSubtopicClick state0 "s3" (some 5)).questionStack = [] ∧
    (handleSubtopicClick state0 "s3" (some 5)).quiz = initQuizState :=
  (selection_change_recompute state0 data0 "s3" (some 5) (by decide) (by decide)
    (by decide)).2 (by decide)

/-- C2 (amended): over a state InProgress(index) with a loaded dataset and a
non-empty selected subtopic id, advance is a no-op when no choice has been
recorded and also when the recorded choice id is the empty string; when a
choice with a non-empty id has been recorded, advance moves to
InProgress(index+1) with the stack unchanged and the explanation text reset
to the subtopic/topic-level explanation when index + 1 < length, and to
Complete with the fixed completion message when index + 1 = length. -/
theorem advance_state_machine (s : DashState) (data : DashboardData) (id : String)
    (a : String)
    (hdata : s.dashboardData = some data)
    (hsel : s.selectedSubtopicId = some id) (hid : id ≠ "")
    (hcomp : s.questionsComplete = false)
    (hidx : s.currentQuestionIndex < s.questionStack.length) :
    (s.quiz.selectedAnswer = none → handleNext s = s) ∧
    (s.quiz.selectedAnswer = some "" → handleNext s = s) ∧
    (s.quiz.selectedAnswer = some a → a ≠ "" →
      (s.currentQuestionIndex + 1 < s.questionStack.length →
        progState (handleNext s) = ProgState.InProgress (s.currentQuestionIndex + 1) ∧
        (handleNext s).questionStack = s.questionStack ∧
        (handleNext s).explanationText =
          (getSubtopicExplanation data id).getD "No explanation available.") ∧
      (s.currentQuestionIndex + 1 = s.questionStack.length →
        progState (handleNext s) = ProgState.Complete ∧
        (handleNext s).explanationText = "All questions have been answered!" ∧
        (handleNext s).currentQuestionIndex = s.currentQuestionIndex)) := by
  have hbeq : (id == "") = false := by simpa using hid
  rcases s with ⟨dd, sel, pdf, expl, stack, idx, comp, qz⟩
  simp only at hdata hsel hcomp hidx
  subst hdata
  subst hsel
  subst hcomp
  refine ⟨?_, ?_, ?_⟩
  · intro hans
    simp only at hans
    simp [handleNext, truthyStr, hans]
  · intro hans
    simp only at hans
    simp [handleNext, truthyStr, hans]
  · intro hans hne
    simp only at hans
    have htruthy : truthyStr qz.selectedAnswer = true := by
      simp [truthyStr, hans, hne]
    constructor
    · intro hlt
      simp only at hlt
      have hcond : (idx : Int) < (stack.length : Int) - 1 := by omega
      simp only [handleNext, htruthy, if_pos, handleNextQuestion]
      rw [if_pos hcond]
      simp only [hbeq, Bool.false_eq_true, if_false]
      simp only [syncQuiz]
      rw [if_neg (by simp)]
      have hlen0 : stack.length ≠ 0 := by omega
      simp [progState, hlen0]
    · intro heq
      simp only at heq
      have hcond : ¬ ((idx : Int) < (stack.length : Int) - 1) := by omega
      simp only [handleNext, htruthy, if_pos, handleNextQuestion]
      rw [if_neg hcond]
      simp only [syncQuiz]
      rw [if_pos (by simp)]
      simp [progState]

/-- C2 counterexample: in stateCE1 a choice has been recorded for the current
question (the answered flag of the claim) and index + 1 < length, yet advance
does not move to InProgress(index+1): the recorded id is the empty string,
which the truthiness guard of handleNext treats as unanswered, so the whole
state is left unchanged at InProgress(0). -/
theorem advance_state_machine_counterexample :
    stateCE1.quiz.selectedAnswer = some "" ∧
    stateCE1.currentQuestionIndex + 1 < stateCE1.questionStack.length ∧
    handleNext stateCE1 = stateCE1 ∧
    progState (handleNext stateCE1) = ProgState.InProgress 0 := by decide

/-- Witness for C2: after answering question 0 of the sample dataset with
choice a, advancing reaches InProgress(1) and resets the explanation. -/
theorem advance_state_machine_witness :
    progState (handleNext (clickAnswer state0 answerA)) = ProgState.InProgress 1 ∧
    (handleNext (clickAnswer state0 answerA)).questionStack =
      (clickAnswer state0 answerA).questionStack ∧
    (handleNext (clickAnswer state0 answerA)).explanationText =
      (getSubtopicExplanation data0 "s1").getD "No explanation available." := by
  have h := advance_state_machine (clickAnswer state0 answerA) data0 "s1" "a"
    (by decide) (by decide) (by decide) (by decide) (by decide)
  exact (h.2.2 (by decide) (by decide)).1 (by decide)

/-- C3 (amended): answer submission is one-shot provided the id of the picked choice is non-empty: after such a first pick, submitting any further choice for
the same question leaves the entire state identical.  A first pick whose
choice id is the empty string does not lock the question, because the guard
tests string truthiness rather than presence. -/
theorem answer_one_shot (s : DashState) (a b : QuizAnswer)
    (hfirst : s.quiz.selectedAnswer = none) (ha : a.id ≠ "") :
    clickAnswer (clickAnswer s a) b = clickAnswer s a := by
  rcases s with ⟨dd, sel, pdf, expl, stack, idx, comp, qz⟩
  simp only at hfirst
  simp [clickAnswer, handleAnswerClick, truthyStr, hfirst, ha]

/-- C3 counterexample: after picking the empty-id choice, submitting another
choice is not a no-op: the state changes (the recorded answer and the shown
explanation move to the new pick). -/
theorem answer_one_shot_counterexample :
    stateCE1.quiz.selectedAnswer = some "" ∧
    stateCE1.explanationText = "e0" ∧
    (clickAnswer stateCE1 answerE1).explanationText = "e1" ∧
    clickAnswer stateCE1 answerE1 ≠ stateCE1 := by decide

/-- Witness for C3: picking choice a of the sample question locks it, so a
second pick of choice b changes nothing. -/
theorem answer_one_shot_witness :
    clickAnswer (clickAnswer state0 answerA) answerB = clickAnswer state0 answerA :=
  answer_one_shot state0 answerA answerB (by decide) (by decide)

/-- C4: on a first answer submission the shown explanation becomes the picked
explanation text of the picked answer whether or not it is correct, and it is recorded as
the selected explanation; when no rendered choice of the current question is
flagged correct, no choice is given the green correct highlight, while the
explanation of the picked choice is still shown.  All functions involved are
total, so no error is raised. -/
theorem first_answer_shows_picked_explanation (s : DashState) (a : QuizAnswer)
    (hfirst : s.quiz.selectedAnswer = none) :
    (clickAnswer s a).explanationText = a.explanation ∧
    (clickAnswer s a).quiz.selectedExplanation = some a.explanation ∧
    ((∀ b ∈ currentAnswers s, b.isCorrect = false) →
      ∀ b ∈ currentAnswers (clickAnswer s a),
        answerShownCorrect (clickAnswer s a) b = false) := by
  rcases s with ⟨dd, sel, pdf, expl, stack, idx, comp, qz⟩
  simp only at hfirst
  refine ⟨?_, ?_, ?_⟩
  · simp [clickAnswer, handleAnswerClick, truthyStr, hfirst]
  · simp [clickAnswer, handleAnswerClick, truthyStr, hfirst]
  · intro hall b hb
    have hstack : currentAnswers (clickAnswer
        ⟨dd, sel, pdf, expl, stack, idx, comp, qz⟩ a) =
        currentAnswers ⟨dd, sel, pdf, expl, stack, idx, comp, qz⟩ := by
      simp [clickAnswer, handleAnswerClick, truthyStr, hfirst, currentAnswers]
    rw [hstack] at hb
    simp [answerShownCorrect, hall b hb]

/-- Witness for C4: picking the wrong choice b of the sample question shows
its explanation text eb. -/
theorem first_answer_shows_picked_explanation_witness :
    (clickAnswer state0 answerB).explanationText = answerB.explanation ∧
    (clickAnswer state0 answerB).quiz.selectedExplanation = some answerB.explanation := by
  have h := first_answer_shows_picked_explanation state0 answerB (by decide)
  exact ⟨h.1, h.2.1⟩

end SenseiAI
